import Mathlib

/-!
# Verification of the tiered hotel-review retrieval pipeline

Shallow embedding of the retrieval code in `hotel_review_chatbot.py`
(with the Tier A request shape shared by `fully-documented-code.py`).
Scores and distances are modelled as exact rationals; the two-decimal
string formatting of Python f-strings is modelled by `formatTwoDec`.
The document store is modelled by explicit response data: a request that
carries a `LIMIT k` (or `SearchOptions(limit=k)`) is answered by the
store with at most `k` rows, which the model renders as `List.take k`,
and the `ORDER BY VECTOR_DISTANCE` clause of the Tier C statement is
rendered as a stable sort on the per-row distance.
-/

namespace HotelChatbot

/-- Ratings mapping: category name to numeric rating (`review_ratings`). -/
abbrev Ratings := List (String × Rat)

/-- The normalized output record built by every tier
(`result_item` dictionaries in the source). -/
structure ResultItem where
  hotel_name : String
  review_content : String
  review_author : String
  review_date : String
  similarity_score : String
  ratings : Ratings
deriving Repr, DecidableEq

/-- Round to the nearest integer, halves up: model of the rounding used
when a float is formatted with two decimals. -/
def roundRat (q : Rat) : Int := ⌊q + (1:Rat)/2⌋

/-- Model of the Python formatting expression `f"{x:.2f}"`. -/
def formatTwoDec (q : Rat) : String :=
  let n : Int := roundRat (q * 100)
  let sign : String := if n < 0 then "-" else ""
  let a : Nat := n.natAbs
  let fracStr : String := (if a % 100 < 10 then "0" else "") ++ toString (a % 100)
  sign ++ toString (a / 100) ++ "." ++ fracStr

/-- The literal unscored marker used by the Tier D fallback. -/
def unscoredMarker : String := "N/A (fallback)"

/-! ## Tier C: `fallback_to_n1ql` (N1QL with vector functions) -/

/-- A row returned by the Tier C N1QL statement: the selected fields,
each possibly absent, plus the store-computed
`VECTOR_DISTANCE(embedding, $query_vector) AS distance_score`. -/
structure N1qlRow where
  hotel_name : Option String
  review_content : Option String
  review_author : Option String
  review_date : Option String
  review_ratings : Option Ratings
  distance_score : Option Rat
deriving Repr, DecidableEq

/-- `row.get('distance_score', 0)` in `fallback_to_n1ql`. -/
def rowDistance (row : N1qlRow) : Rat := row.distance_score.getD 0

/-- `similarity = 1 - distance` in `fallback_to_n1ql` (no clamping in the source). -/
def n1qlSimilarity (row : N1qlRow) : Rat := 1 - rowDistance row

/-- Modelled from the spec (not the source): "canonical similarity = 1 − distance,
clamped to [0,1]". The source computes `1 - distance` with no clamp; this
definition follows the words of the spec for comparison. -/
def specClampedSimilarity (distance : Rat) : Rat := max 0 (min 1 (1 - distance))

/-- Normalization of one Tier C row into a `result_item`
(`fallback_to_n1ql`, result processing loop). -/
def n1qlRowToItem (row : N1qlRow) : ResultItem :=
  { hotel_name := row.hotel_name.getD "Unknown Hotel"
  , review_content := row.review_content.getD "No content available"
  , review_author := row.review_author.getD "Anonymous"
  , review_date := row.review_date.getD "Unknown date"
  , similarity_score := formatTwoDec (n1qlSimilarity row)
  , ratings := row.review_ratings.getD [] }

def CB_BUCKET : String := "travel-sample"
def CB_SCOPE : String := "inventory"
def CB_COLLECTION_TARGET : String := "reviewvector"
def VECTOR_INDEX_NAME : String := "review_vector_idx"

/-- The Tier C N1QL statement string (`vector_query` in `fallback_to_n1ql`):
built from module constants and `top_k` only; the embedding is referenced
through the placeholder `$query_vector`, never spliced in. -/
def tierC_statement (top_k : Nat) : String :=
  "SELECT meta().id as doc_id, hotel_name, review_content, review_author, review_date, review_ratings, " ++
  "VECTOR_DISTANCE(embedding, $query_vector) AS distance_score " ++
  "FROM `" ++ CB_BUCKET ++ "`.`" ++ CB_SCOPE ++ "`.`" ++ CB_COLLECTION_TARGET ++ "` " ++
  "WHERE embedding IS NOT NULL " ++
  "ORDER BY VECTOR_DISTANCE(embedding, $query_vector) " ++
  "LIMIT " ++ toString top_k

/-- The call `cluster.query(vector_query, query_context=..., parameters=...)`
issued by `fallback_to_n1ql`: statement string, query context,
and the bound parameters. -/
structure QueryCall where
  statement : String
  query_context : String
  parameters : List (String × List Rat)
deriving Repr, DecidableEq

/-- The query call made by `fallback_to_n1ql(cluster, query_embedding, top_k)`:
the statement uses only constants and `top_k`; the embedding travels in
`parameters` under the key `query_vector`. -/
def fallback_to_n1ql_call (query_embedding : List Rat) (top_k : Nat) : QueryCall :=
  { statement := tierC_statement top_k
  , query_context := "default:`" ++ CB_BUCKET ++ "`.`" ++ CB_SCOPE ++ "`"
  , parameters := [("query_vector", query_embedding)] }

/-- Total preorder on rows used by the `ORDER BY VECTOR_DISTANCE` clause. -/
def distLE (a b : N1qlRow) : Prop := rowDistance a ≤ rowDistance b

instance : DecidableRel distLE := fun a b =>
  inferInstanceAs (Decidable (rowDistance a ≤ rowDistance b))

instance : IsTotal N1qlRow distLE := ⟨fun a b => le_total (rowDistance a) (rowDistance b)⟩

instance : IsTrans N1qlRow distLE := ⟨fun _ _ _ => le_trans⟩

/-- Store semantics of the Tier C statement over the collection rows `docs`
(in native store order): sort stably ascending by distance
(`ORDER BY VECTOR_DISTANCE`), keep the first `top_k` (`LIMIT top_k`). -/
def tierC_storeRows (docs : List N1qlRow) (top_k : Nat) : List N1qlRow :=
  (docs.insertionSort distLE).take top_k

/-- `fallback_to_n1ql`: `none` models the query raising (the function then
returns `[]`); `some docs` models a successful query over collection
content `docs`, each returned row normalized in order. -/
def fallback_to_n1ql (store : Option (List N1qlRow)) (top_k : Nat) : List ResultItem :=
  match store with
  | some docs => (tierC_storeRows docs top_k).map n1qlRowToItem
  | none => []

/-! ## Tier D: `fallback_search` (unscored KV fallback) -/

/-- A stored review document as seen by the KV `get` path of
`fallback_search` (each optional field possibly absent). -/
structure StoredDoc where
  hotel_name : Option String
  review_content : Option String
  review_author : Option String
  review_date : Option String
  review_ratings : Option Ratings
deriving Repr, DecidableEq

/-- Normalization of one fetched document in `fallback_search`: the
similarity field is always the placeholder string. -/
def docToFallbackItem (doc : StoredDoc) : ResultItem :=
  { hotel_name := doc.hotel_name.getD "Unknown Hotel"
  , review_content := doc.review_content.getD "No content available"
  , review_author := doc.review_author.getD "Anonymous"
  , review_date := doc.review_date.getD "Unknown date"
  , similarity_score := unscoredMarker
  , ratings := doc.review_ratings.getD [] }

/-- The Tier D listing statement string (`query` in `fallback_search`):
built from module constants and `top_k`; the caller argument
`user_input` never appears in it. -/
def tierD_statement (top_k : Nat) : String :=
  "SELECT META().id as doc_id " ++
  "FROM `" ++ CB_BUCKET ++ "`.`" ++ CB_SCOPE ++ "`.`" ++ CB_COLLECTION_TARGET ++ "` " ++
  "LIMIT " ++ toString top_k

/-- The statement `fallback_search(user_input, top_k)` sends to
`cluster.query`: the source builds it from constants and `top_k` only,
with `user_input` unused in the statement. -/
def fallback_search_statement (user_input : String) (top_k : Nat) : String :=
  tierD_statement top_k

/-- Store state seen by `fallback_search`: whether `connect_to_capella`
yields a usable cluster, and, per listed document id in native order,
the outcome of the per-id KV `get` (`none` models a raised error or an
unextractable `GetResult`, which the loop skips with `continue`). -/
structure TierDStore where
  reachable : Bool
  docs : List (Option StoredDoc)
deriving Repr, DecidableEq

/-- Outcome of `fallback_search` / `perform_vector_search`: either a list
of normalized result records, or the error sentinel
`[{"error": "Search failed: ..."}]` returned when the store itself is
unreachable — a record shape carrying no result fields, distinct from
every ordinary result list. -/
inductive SearchOutcome where
  | results (items : List ResultItem)
  | connectError (msg : String)
deriving Repr, DecidableEq

/-- `fallback_search(user_input, top_k)`: on an unreachable store the
connection (or the first use of the `None` cluster) raises and the
function returns the error sentinel; otherwise the listing query yields
at most `top_k` ids (`LIMIT top_k`), each fetched by KV and normalized,
failed fetches skipped. -/
def fallback_search (store : TierDStore) (top_k : Nat) : SearchOutcome :=
  if store.reachable then
    .results (((store.docs.take top_k).filterMap id).map docToFallbackItem)
  else
    .connectError "Search failed: store unreachable"

/-! ## Capability probe: `check_vector_search_index` -/

/-- Outcome of the probing attempts inside `check_vector_search_index`:
the Search API index listing succeeded with these index names; or it
raised and the `system:indexes` N1QL fallback answered whether the named
index was found; or both raised (outer `except` returns `False`). -/
inductive ProbeOutcome where
  | searchApiOk (names : List String)
  | searchApiFailN1qlOk (found : Bool)
  | bothFail
deriving Repr, DecidableEq

/-- `check_vector_search_index(cluster)`: `False` for a `None` cluster;
otherwise `True` exactly when the probe found the vector index, and
`False` when probing itself failed entirely. -/
def check_vector_search_index (clusterIsNone : Bool) (probe : ProbeOutcome) : Bool :=
  if clusterIsNone then false
  else
    match probe with
    | .searchApiOk names => names.contains VECTOR_INDEX_NAME
    | .searchApiFailN1qlOk found => found
    | .bothFail => false

/-! ## Tiers A/B: native vector search in `perform_vector_search` -/

/-- A row of a Search API response: the selected fields (absent when no
extraction attempt succeeds, which the loop skips) and the row score
(absent when neither `row.score()` nor `row._score` exists). -/
structure SearchRow where
  fields : Option StoredDoc
  score : Option Rat
deriving Repr, DecidableEq

/-- The similarity computed for one Search API row: `1 - score` when a
score is obtainable, else the default `0` (lines 397-403 of the source,
no clamping). -/
def searchRowSimilarity (row : SearchRow) : Rat :=
  match row.score with
  | some s => 1 - s
  | none => 0

/-- Normalization of one Search API row; `none` when no field extraction
works and the row is skipped. -/
def searchRowToItem (row : SearchRow) : Option ResultItem :=
  match row.fields with
  | none => none
  | some f => some
    { hotel_name := f.hotel_name.getD "Unknown Hotel"
    , review_content := f.review_content.getD "No content available"
    , review_author := f.review_author.getD "Anonymous"
    , review_date := f.review_date.getD "Unknown date"
    , similarity_score := formatTwoDec (searchRowSimilarity row)
    , ratings := f.review_ratings.getD [] }

/-- The result-processing loop of `perform_vector_search` over the rows
the store returned, for the primary `result.rows()` extraction path
(lines 365-413); the alternative `result.hits` extraction path
(lines 414-433) is modelled by `hitToItem` below. -/
def processSearchRows (rows : List SearchRow) : List ResultItem :=
  rows.filterMap searchRowToItem

/-- A hit of the `result.hits` alternative extraction branch of
`perform_vector_search` (lines 417-430): the `fields` sub-dictionary
(absent when the hit has no `fields` key) and the optional `score` key. -/
structure HitDict where
  fields : Option StoredDoc
  score : Option Rat
deriving Repr, DecidableEq

/-- The empty document dictionary: `hit.get('fields', {})` default. -/
def emptyFields : StoredDoc := ⟨none, none, none, none, none⟩

/-- `similarity = 1 - hit.get('score', 0)` in the hits branch: an absent
score key is silently defaulted to `0`, making the similarity `1`. -/
def hitSimilarity (hit : HitDict) : Rat := 1 - hit.score.getD 0

/-- Normalization of one hit in the `result.hits` branch: unlike the
`rows()` path, a hit without a `fields` key is not skipped — the empty
dictionary is used and every field falls back to its placeholder. -/
def hitToItem (hit : HitDict) : ResultItem :=
  { hotel_name := (hit.fields.getD emptyFields).hotel_name.getD "Unknown Hotel"
  , review_content := (hit.fields.getD emptyFields).review_content.getD "No content available"
  , review_author := (hit.fields.getD emptyFields).review_author.getD "Anonymous"
  , review_date := (hit.fields.getD emptyFields).review_date.getD "Unknown date"
  , similarity_score := formatTwoDec (hitSimilarity hit)
  , ratings := (hit.fields.getD emptyFields).review_ratings.getD [] }

/-- The loop of the `result.hits` branch: every hit is normalized and
appended, in order. -/
def processHits (hits : List HitDict) : List ResultItem :=
  hits.map hitToItem

/-- The Tier A vector query component:
`VectorQuery('embedding', query_embedding, num_candidates=100)`. -/
structure VectorQueryReq where
  field : String
  vector : List Rat
  num_candidates : Nat
deriving Repr, DecidableEq

/-- The Tier A search request with its options:
`SearchOptions(limit=top_k, fields=[...])`. -/
structure SearchRequestModel where
  vq : VectorQueryReq
  limit : Nat
  returnFields : List String
deriving Repr, DecidableEq

/-- The request `perform_vector_search` sends to `scope.search` for
Tier A (same shape in `fully-documented-code.py`): a fixed
`num_candidates=100` and `limit=top_k`. -/
def tierA_request (query_embedding : List Rat) (top_k : Nat) : SearchRequestModel :=
  { vq := { field := "embedding", vector := query_embedding, num_candidates := 100 }
  , limit := top_k
  , returnFields :=
      ["hotel_name", "review_content", "review_author", "review_date", "review_ratings"] }

/-- Outcome of the Tier A `scope.search` call: a successful response
(rows, before the store applies `limit=top_k`), an `AttributeError`
(interface-shape mismatch, branch to Tier B), or any other exception
(caught by the outer `except`, branch to `fallback_search`). -/
inductive TierAOutcome where
  | ok (rows : List SearchRow)
  | attrError
  | otherError
deriving Repr, DecidableEq

/-- Outcome of the Tier B `cluster.search` call (taken only when the
cluster has a `search_query` attribute): success or any exception
(branch to `fallback_search`). -/
inductive TierBOutcome where
  | ok (rows : List SearchRow)
  | fail
deriving Repr, DecidableEq

/-- One session environment for `perform_vector_search(user_input, top_k)`:
the connection outcome, the probe outcome, the store responses of each
tier, and whether the cluster object has the `search_query` attribute. -/
structure World where
  connected : Bool
  probe : ProbeOutcome
  tierA : TierAOutcome
  hasSearchQuery : Bool
  tierB : TierBOutcome
  tierC : Option (List N1qlRow)
  tierD : TierDStore
deriving Repr, DecidableEq

/-- `perform_vector_search(user_input, top_k)` control flow:
failed connection or a probe not confirming the index fall back to
`fallback_search`; Tier A rows (store-limited to `top_k`) are processed
on success; an `AttributeError` routes to Tier B when `search_query`
exists, else to `fallback_to_n1ql`; every other failure routes to
`fallback_search`. -/
def perform_vector_search (w : World) (top_k : Nat) : SearchOutcome :=
  if w.connected = false then fallback_search w.tierD top_k
  else if check_vector_search_index false w.probe = false then
    fallback_search w.tierD top_k
  else
    match w.tierA with
    | .ok rows => .results (processSearchRows (rows.take top_k))
    | .otherError => fallback_search w.tierD top_k
    | .attrError =>
      if w.hasSearchQuery then
        match w.tierB with
        | .ok rows => .results (processSearchRows (rows.take top_k))
        | .fail => fallback_search w.tierD top_k
      else
        .results (fallback_to_n1ql w.tierC top_k)

/-! ## Shared lemmas -/

theorem length_processSearchRows_le (rows : List SearchRow) :
    (processSearchRows rows).length ≤ rows.length :=
  List.length_filterMap_le _ _

theorem fallback_search_results_length {store : TierDStore} {k : Nat}
    {items : List ResultItem} (h : fallback_search store k = .results items) :
    items.length ≤ k := by
  unfold fallback_search at h
  split at h
  · simp only [SearchOutcome.results.injEq] at h
    subst h
    calc (((store.docs.take k).filterMap id).map docToFallbackItem).length
        = ((store.docs.take k).filterMap id).length := List.length_map _ _
      _ ≤ (store.docs.take k).length := List.length_filterMap_le _ _
      _ ≤ k := List.length_take_le _ _
  · exact absurd h (by simp)

theorem fallback_to_n1ql_length (store : Option (List N1qlRow)) (k : Nat) :
    (fallback_to_n1ql store k).length ≤ k := by
  cases store with
  | none => simp [fallback_to_n1ql]
  | some docs =>
    calc (fallback_to_n1ql (some docs) k).length
        = (tierC_storeRows docs k).length := List.length_map _ _
      _ ≤ k := List.length_take_le _ _

theorem length_take_processSearchRows_le (rows : List SearchRow) (k : Nat) :
    (processSearchRows (rows.take k)).length ≤ k :=
  le_trans (length_processSearchRows_le _) (List.length_take_le _ _)

theorem mem_processSearchRows_similarity {rows : List SearchRow} {item : ResultItem}
    (h : item ∈ processSearchRows rows) :
    ∃ q : Rat, item.similarity_score = formatTwoDec q := by
  unfold processSearchRows at h
  obtain ⟨row, -, hrow⟩ := List.mem_filterMap.mp h
  unfold searchRowToItem at hrow
  cases hf : row.fields with
  | none => rw [hf] at hrow; cases hrow
  | some f =>
    rw [hf] at hrow
    simp only [Option.some.injEq] at hrow
    subst hrow
    exact ⟨_, rfl⟩

theorem fallback_search_results_similarity {store : TierDStore} {k : Nat}
    {items : List ResultItem} (h : fallback_search store k = .results items) :
    ∀ item ∈ items, item.similarity_score = unscoredMarker := by
  unfold fallback_search at h
  split at h
  · injection h with h
    subst h
    intro item hmem
    obtain ⟨doc, -, rfl⟩ := List.mem_map.mp hmem
    rfl
  · exact absurd h (by simp)

theorem mem_fallback_to_n1ql_similarity {store : Option (List N1qlRow)} {k : Nat}
    {item : ResultItem} (hmem : item ∈ fallback_to_n1ql store k) :
    ∃ q : Rat, item.similarity_score = formatTwoDec q := by
  cases store with
  | none => simp [fallback_to_n1ql] at hmem
  | some docs =>
    simp only [fallback_to_n1ql] at hmem
    obtain ⟨row, -, rfl⟩ := List.mem_map.mp hmem
    exact ⟨_, rfl⟩

/-! ## Claims -/

/-- C1: if the store is unreachable for every tier (the initial connection
fails and the reconnection inside `fallback_search` fails too),
`perform_vector_search` returns the single error-sentinel outcome and
never an empty or ordinary result list, so the caller can distinguish
"no matches" from "search unavailable". -/
theorem C1_total_failure_propagates (w : World) (top_k : Nat)
    (hconn : w.connected = false) (hD : w.tierD.reachable = false) :
    perform_vector_search w top_k = .connectError "Search failed: store unreachable"
    ∧ ∀ items : List ResultItem, perform_vector_search w top_k ≠ .results items := by
  have hmain : perform_vector_search w top_k
      = .connectError "Search failed: store unreachable" := by
    unfold perform_vector_search
    rw [if_pos hconn]
    unfold fallback_search
    rw [if_neg (by simp [hD])]
  exact ⟨hmain, fun items h => by rw [hmain] at h; cases h⟩

theorem C1_total_failure_propagates_witness :
    perform_vector_search ⟨false, .bothFail, .attrError, false, .fail, none, ⟨false, []⟩⟩ 5
      = .connectError "Search failed: store unreachable"
    ∧ ∀ items : List ResultItem,
        perform_vector_search ⟨false, .bothFail, .attrError, false, .fail, none, ⟨false, []⟩⟩ 5
          ≠ .results items :=
  C1_total_failure_propagates ⟨false, .bothFail, .attrError, false, .fail, none, ⟨false, []⟩⟩ 5
    rfl rfl

/-- C2 counterexample: the source computes `similarity = 1 - distance`
with no clamp, so a Tier C row whose store-reported distance is `2`
yields canonical similarity `-1`, outside `[0,1]` and different from the
clamped value the claim asserts; the record carries the string "-1.00". -/
theorem C2_counterexample :
    n1qlSimilarity ⟨none, none, none, none, none, some 2⟩ = -1
    ∧ ¬ (0 ≤ n1qlSimilarity ⟨none, none, none, none, none, some 2⟩)
    ∧ n1qlSimilarity ⟨none, none, none, none, none, some 2⟩
        ≠ specClampedSimilarity (rowDistance ⟨none, none, none, none, none, some 2⟩)
    ∧ (n1qlRowToItem ⟨none, none, none, none, none, some 2⟩).similarity_score = "-1.00" := by
  refine ⟨by norm_num [n1qlSimilarity, rowDistance], by norm_num [n1qlSimilarity, rowDistance],
    by norm_num [n1qlSimilarity, rowDistance, specClampedSimilarity], ?_⟩
  show formatTwoDec (n1qlSimilarity ⟨none, none, none, none, none, some 2⟩) = "-1.00"
  norm_num [n1qlSimilarity, rowDistance, formatTwoDec, roundRat]
  rfl

/-- C2 (amended): for every scored row of Tiers A/B (Search API rows) and
Tier C (N1QL rows), canonical similarity equals `1 -` the native
distance/score with NO clamping; it therefore lies in `[0,1]` exactly
when the native value does (in particular whenever the store reports a
distance in `[0,1]`, as the source assumes). -/
theorem C2_similarity_one_minus_distance (row : N1qlRow) (srow : SearchRow)
    (d s : Rat) (hd : row.distance_score = some d) (hs : srow.score = some s)
    (hd0 : 0 ≤ d) (hd1 : d ≤ 1) (hs0 : 0 ≤ s) (hs1 : s ≤ 1) :
    n1qlSimilarity row = 1 - d
    ∧ 0 ≤ n1qlSimilarity row ∧ n1qlSimilarity row ≤ 1
    ∧ searchRowSimilarity srow = 1 - s
    ∧ 0 ≤ searchRowSimilarity srow ∧ searchRowSimilarity srow ≤ 1 := by
  have h1 : n1qlSimilarity row = 1 - d := by
    simp [n1qlSimilarity, rowDistance, hd]
  have h2 : searchRowSimilarity srow = 1 - s := by
    simp [searchRowSimilarity, hs]
  refine ⟨h1, ?_, ?_, h2, ?_, ?_⟩ <;> simp only [h1, h2] <;> linarith

theorem C2_similarity_one_minus_distance_witness :
    n1qlSimilarity ⟨none, none, none, none, none, some (1/10)⟩ = 1 - 1/10
    ∧ 0 ≤ n1qlSimilarity ⟨none, none, none, none, none, some (1/10)⟩
    ∧ n1qlSimilarity ⟨none, none, none, none, none, some (1/10)⟩ ≤ 1
    ∧ searchRowSimilarity ⟨none, some (1/10)⟩ = 1 - 1/10
    ∧ 0 ≤ searchRowSimilarity ⟨none, some (1/10)⟩
    ∧ searchRowSimilarity ⟨none, some (1/10)⟩ ≤ 1 :=
  C2_similarity_one_minus_distance ⟨none, none, none, none, none, some (1/10)⟩
    ⟨none, some (1/10)⟩ (1/10) (1/10) rfl rfl (by norm_num) (by norm_num)
    (by norm_num) (by norm_num)

/-- C3 counterexample: a Search API row from which no score can be
obtained (neither `row.score()` nor `row._score`) is NOT marked
unscored: the source silently defaults `similarity = 0` and the record
carries the numeric string "0.00", not the Tier D marker. -/
theorem C3_counterexample :
    searchRowToItem ⟨some ⟨none, none, none, none, none⟩, none⟩
      = some { hotel_name := "Unknown Hotel", review_content := "No content available"
             , review_author := "Anonymous", review_date := "Unknown date"
             , similarity_score := formatTwoDec 0, ratings := [] }
    ∧ formatTwoDec 0 = "0.00"
    ∧ ("0.00" : String) ≠ unscoredMarker := by
  refine ⟨rfl, ?_, by decide⟩
  norm_num [formatTwoDec, roundRat]
  rfl

/-- C3 (amended): Tier D records always carry the explicit unscored
marker, but a Tier A/B RawHit from which no score can be obtained is
never marked unscored — it gets a silently defaulted numeric
similarity: the `rows()` extraction path defaults the similarity itself
to `0` (rendered "0.00"), and the `result.hits` extraction path
defaults the missing score to `0`, yielding similarity `1 - 0 = 1`
(rendered "1.00"). -/
theorem C3_unscored_marker (doc f : StoredDoc) (row : SearchRow) (hit : HitDict)
    (hs : row.score = none) (hf : row.fields = some f) (hh : hit.score = none) :
    (docToFallbackItem doc).similarity_score = unscoredMarker
    ∧ searchRowToItem row
        = some { hotel_name := f.hotel_name.getD "Unknown Hotel"
               , review_content := f.review_content.getD "No content available"
               , review_author := f.review_author.getD "Anonymous"
               , review_date := f.review_date.getD "Unknown date"
               , similarity_score := formatTwoDec 0, ratings := f.review_ratings.getD [] }
    ∧ hitSimilarity hit = 1
    ∧ processHits [hit] = [hitToItem hit]
    ∧ (hitToItem hit).similarity_score = formatTwoDec 1
    ∧ formatTwoDec 0 = "0.00" ∧ formatTwoDec 1 = "1.00"
    ∧ ("0.00" : String) ≠ unscoredMarker ∧ ("1.00" : String) ≠ unscoredMarker := by
  have h1 : hitSimilarity hit = 1 := by simp [hitSimilarity, hh]
  refine ⟨rfl, ?_, h1, rfl, ?_, ?_, ?_, by decide, by decide⟩
  · unfold searchRowToItem searchRowSimilarity
    rw [hf, hs]
  · show formatTwoDec (hitSimilarity hit) = formatTwoDec 1
    rw [h1]
  · norm_num [formatTwoDec, roundRat]
    rfl
  · norm_num [formatTwoDec, roundRat]
    rfl

theorem C3_unscored_marker_witness :
    (docToFallbackItem ⟨none, none, none, none, none⟩).similarity_score = unscoredMarker
    ∧ searchRowToItem ⟨some ⟨none, none, none, none, none⟩, none⟩
        = some { hotel_name := (none : Option String).getD "Unknown Hotel"
               , review_content := (none : Option String).getD "No content available"
               , review_author := (none : Option String).getD "Anonymous"
               , review_date := (none : Option String).getD "Unknown date"
               , similarity_score := formatTwoDec 0
               , ratings := (none : Option Ratings).getD [] }
    ∧ hitSimilarity ⟨some ⟨none, none, none, none, none⟩, none⟩ = 1
    ∧ processHits [⟨some ⟨none, none, none, none, none⟩, none⟩]
        = [hitToItem ⟨some ⟨none, none, none, none, none⟩, none⟩]
    ∧ (hitToItem ⟨some ⟨none, none, none, none, none⟩, none⟩).similarity_score = formatTwoDec 1
    ∧ formatTwoDec 0 = "0.00" ∧ formatTwoDec 1 = "1.00"
    ∧ ("0.00" : String) ≠ unscoredMarker ∧ ("1.00" : String) ≠ unscoredMarker :=
  C3_unscored_marker ⟨none, none, none, none, none⟩ ⟨none, none, none, none, none⟩
    ⟨some ⟨none, none, none, none, none⟩, none⟩
    ⟨some ⟨none, none, none, none, none⟩, none⟩ rfl rfl rfl

/-- C4 counterexample: a row with a missing `review_date` is normalized
to the placeholder "Unknown date", not to the empty string the claim
asserts. -/
theorem C4_counterexample :
    (n1qlRowToItem ⟨none, none, none, none, none, none⟩).review_date = "Unknown date"
    ∧ (n1qlRowToItem ⟨none, none, none, none, none, none⟩).review_date ≠ "" := by
  exact ⟨rfl, by decide⟩

/-- C4 (amended): normalization is total (a Lean function, raising
nothing) and defaults a missing `review_author` to "Anonymous", missing
`ratings` to the empty mapping, and a missing `review_date` to
"Unknown date" (not to the empty string), in every tier's normalizer:
Tier C N1QL rows, Tier D fetched documents, and both Tier A/B
extraction paths (`rows()` search rows and `result.hits` hits). -/
theorem C4_normalization_defaults (row : N1qlRow) (doc : StoredDoc)
    (srow : SearchRow) (f : StoredDoc) (hit : HitDict)
    (ha : row.review_author = none) (hd : row.review_date = none)
    (hr : row.review_ratings = none)
    (ha2 : doc.review_author = none) (hd2 : doc.review_date = none)
    (hr2 : doc.review_ratings = none)
    (hsf : srow.fields = some f) (hhf : hit.fields = some f)
    (ha3 : f.review_author = none) (hd3 : f.review_date = none)
    (hr3 : f.review_ratings = none) :
    (n1qlRowToItem row).review_author = "Anonymous"
    ∧ (n1qlRowToItem row).review_date = "Unknown date"
    ∧ (n1qlRowToItem row).ratings = []
    ∧ (docToFallbackItem doc).review_author = "Anonymous"
    ∧ (docToFallbackItem doc).review_date = "Unknown date"
    ∧ (docToFallbackItem doc).ratings = []
    ∧ (searchRowToItem srow).map
        (fun item => (item.review_author, item.review_date, item.ratings))
        = some ("Anonymous", "Unknown date", ([] : Ratings))
    ∧ (hitToItem hit).review_author = "Anonymous"
    ∧ (hitToItem hit).review_date = "Unknown date"
    ∧ (hitToItem hit).ratings = [] := by
  refine ⟨?_, ?_, ?_, ?_, ?_, ?_, ?_, ?_, ?_, ?_⟩
  · simp [n1qlRowToItem, ha]
  · simp [n1qlRowToItem, hd]
  · simp [n1qlRowToItem, hr]
  · simp [docToFallbackItem, ha2]
  · simp [docToFallbackItem, hd2]
  · simp [docToFallbackItem, hr2]
  · simp [searchRowToItem, hsf, ha3, hd3, hr3]
  · simp [hitToItem, hhf, ha3]
  · simp [hitToItem, hhf, hd3]
  · simp [hitToItem, hhf, hr3]

theorem C4_normalization_defaults_witness :
    (n1qlRowToItem ⟨some "h", some "c", none, none, none, some 0⟩).review_author = "Anonymous"
    ∧ (n1qlRowToItem ⟨some "h", some "c", none, none, none, some 0⟩).review_date = "Unknown date"
    ∧ (n1qlRowToItem ⟨some "h", some "c", none, none, none, some 0⟩).ratings = []
    ∧ (docToFallbackItem ⟨some "h", some "c", none, none, none⟩).review_author = "Anonymous"
    ∧ (docToFallbackItem ⟨some "h", some "c", none, none, none⟩).review_date = "Unknown date"
    ∧ (docToFallbackItem ⟨some "h", some "c", none, none, none⟩).ratings = []
    ∧ (searchRowToItem ⟨some ⟨some "h", some "c", none, none, none⟩, some 0⟩).map
        (fun item => (item.review_author, item.review_date, item.ratings))
        = some ("Anonymous", "Unknown date", ([] : Ratings))
    ∧ (hitToItem ⟨some ⟨some "h", some "c", none, none, none⟩, some 0⟩).review_author
        = "Anonymous"
    ∧ (hitToItem ⟨some ⟨some "h", some "c", none, none, none⟩, some 0⟩).review_date
        = "Unknown date"
    ∧ (hitToItem ⟨some ⟨some "h", some "c", none, none, none⟩, some 0⟩).ratings = [] :=
  C4_normalization_defaults ⟨some "h", some "c", none, none, none, some 0⟩
    ⟨some "h", some "c", none, none, none⟩
    ⟨some ⟨some "h", some "c", none, none, none⟩, some 0⟩
    ⟨some "h", some "c", none, none, none⟩
    ⟨some ⟨some "h", some "c", none, none, none⟩, some 0⟩
    rfl rfl rfl rfl rfl rfl rfl rfl rfl rfl rfl

/-- C5: the Tier C store response (the model of the statement's
`ORDER BY VECTOR_DISTANCE ... LIMIT top_k` clause, a stable sort
ascending by distance then a `top_k` cut) is sorted ascending by
distance and bounded by `top_k`; since `similarity = 1 - distance` is
monotone decreasing, the similarity sequence is sorted descending; the
engine normalizes rows in store order without re-sorting; and on input
already ordered (in particular under ties) the store rows are exactly
the first `top_k` rows in native order. -/
theorem C5_tierC_descending (docs : List N1qlRow) (top_k : Nat) :
    (tierC_storeRows docs top_k).Sorted distLE
    ∧ (tierC_storeRows docs top_k).length ≤ top_k
    ∧ ((tierC_storeRows docs top_k).map n1qlSimilarity).Sorted (· ≥ ·)
    ∧ fallback_to_n1ql (some docs) top_k = (tierC_storeRows docs top_k).map n1qlRowToItem
    ∧ (docs.Sorted distLE → tierC_storeRows docs top_k = docs.take top_k) := by
  have hsorted : (tierC_storeRows docs top_k).Sorted distLE :=
    List.Pairwise.sublist (List.take_sublist _ _) (List.sorted_insertionSort distLE docs)
  refine ⟨hsorted, List.length_take_le _ _, ?_, rfl, ?_⟩
  · exact List.Pairwise.map n1qlSimilarity
      (fun a b hab => by
        simpa [n1qlSimilarity] using sub_le_sub_left hab (1 : Rat)) hsorted
  · intro hdocs
    unfold tierC_storeRows
    rw [List.Sorted.insertionSort_eq hdocs]

theorem C5_tierC_descending_witness :
    ((tierC_storeRows
        [⟨none, none, none, none, none, some (1/10)⟩,
         ⟨none, none, none, none, none, some (2/10)⟩,
         ⟨none, none, none, none, none, some (2/10)⟩,
         ⟨none, none, none, none, none, some (4/10)⟩,
         ⟨none, none, none, none, none, some (5/10)⟩] 3).map n1qlSimilarity).Sorted (· ≥ ·)
    ∧ tierC_storeRows
        [⟨none, none, none, none, none, some (1/10)⟩,
         ⟨none, none, none, none, none, some (2/10)⟩,
         ⟨none, none, none, none, none, some (2/10)⟩,
         ⟨none, none, none, none, none, some (4/10)⟩,
         ⟨none, none, none, none, none, some (5/10)⟩] 3
      = List.take 3
        [⟨none, none, none, none, none, some (1/10)⟩,
         ⟨none, none, none, none, none, some (2/10)⟩,
         ⟨none, none, none, none, none, some (2/10)⟩,
         ⟨none, none, none, none, none, some (4/10)⟩,
         ⟨none, none, none, none, none, some (5/10)⟩] := by
  have h := C5_tierC_descending
    [⟨none, none, none, none, none, some (1/10)⟩,
     ⟨none, none, none, none, none, some (2/10)⟩,
     ⟨none, none, none, none, none, some (2/10)⟩,
     ⟨none, none, none, none, none, some (4/10)⟩,
     ⟨none, none, none, none, none, some (5/10)⟩] 3
  refine ⟨h.2.2.1, h.2.2.2.2 ?_⟩
  norm_num [List.sorted_cons, distLE, rowDistance]

/-- C6 (amended): a probe whose index-listing call and metadata fallback
both error is never fatal (`check_vector_search_index` returns `False`
and retrieval still returns an outcome), but the unknown capability
state is treated as index-absent, not as "try anyway": Tiers A-C are
skipped and retrieval goes directly to the unscored Tier D fallback. -/
theorem C6_probe_failure_goes_to_tierD (w : World) (k : Nat)
    (hc : w.connected = true) (hp : w.probe = .bothFail) :
    perform_vector_search w k = fallback_search w.tierD k := by
  unfold perform_vector_search
  rw [if_neg (by simp [hc])]
  rw [if_pos (by simp [check_vector_search_index, hp])]

theorem C6_probe_failure_goes_to_tierD_witness :
    perform_vector_search
      ⟨true, .bothFail, .ok [], true, .ok [], none, ⟨true, []⟩⟩ 5
      = fallback_search ⟨true, []⟩ 5 :=
  C6_probe_failure_goes_to_tierD
    ⟨true, .bothFail, .ok [], true, .ok [], none, ⟨true, []⟩⟩ 5 rfl rfl

/-- C6 counterexample: with a connected store, a probe that fails
entirely, and a Tier A response available that would yield a scored
result, `perform_vector_search` nevertheless returns the unscored Tier D
output: the scored tiers are skipped, refuting "Tiers A-C are still
attempted". -/
theorem C6_counterexample :
    perform_vector_search
      ⟨true, .bothFail,
       .ok [⟨some ⟨none, none, none, none, none⟩, some (1/10)⟩],
       true, .ok [], none, ⟨true, [some ⟨none, none, none, none, none⟩]⟩⟩ 5
      = .results [docToFallbackItem ⟨none, none, none, none, none⟩]
    ∧ (docToFallbackItem ⟨none, none, none, none, none⟩).similarity_score = unscoredMarker
    ∧ processSearchRows ([⟨some ⟨none, none, none, none, none⟩, some (1/10)⟩].take 5)
      = [{ hotel_name := "Unknown Hotel", review_content := "No content available"
         , review_author := "Anonymous", review_date := "Unknown date"
         , similarity_score := formatTwoDec (1 - 1/10), ratings := [] }]
    ∧ formatTwoDec (1 - 1/10 : Rat) = "0.90"
    ∧ perform_vector_search
        ⟨true, .bothFail,
         .ok [⟨some ⟨none, none, none, none, none⟩, some (1/10)⟩],
         true, .ok [], none, ⟨true, [some ⟨none, none, none, none, none⟩]⟩⟩ 5
        ≠ .results (processSearchRows
            ([⟨some ⟨none, none, none, none, none⟩, some (1/10)⟩].take 5)) := by
  have hfmt : formatTwoDec (1 - 1/10 : Rat) = "0.90" := by
    norm_num [formatTwoDec, roundRat]
    rfl
  refine ⟨rfl, rfl, rfl, hfmt, ?_⟩
  have h1 : processSearchRows ([⟨some ⟨none, none, none, none, none⟩, some (1/10)⟩].take 5)
      = [{ hotel_name := "Unknown Hotel", review_content := "No content available"
         , review_author := "Anonymous", review_date := "Unknown date"
         , similarity_score := "0.90", ratings := [] }] := by
    rw [← hfmt]
    rfl
  rw [h1]
  have h0 : perform_vector_search
      ⟨true, .bothFail,
       .ok [⟨some ⟨none, none, none, none, none⟩, some (1/10)⟩],
       true, .ok [], none, ⟨true, [some ⟨none, none, none, none, none⟩]⟩⟩ 5
      = .results [docToFallbackItem ⟨none, none, none, none, none⟩] := rfl
  rw [h0]
  decide

/-- C7: for every user query text and every embedding, the statement
strings issued to the declarative query interface by Tier C
(`fallback_to_n1ql`) and Tier D (`fallback_search`) are identical across
inputs — they depend only on module constants and `top_k` — and the
embedding reaches the store exclusively as the bound parameter
`query_vector`, never inlined into the statement. -/
theorem C7_statement_independence (u₁ u₂ : String) (e₁ e₂ : List Rat) (k : Nat) :
    (fallback_to_n1ql_call e₁ k).statement = (fallback_to_n1ql_call e₂ k).statement
    ∧ (fallback_to_n1ql_call e₁ k).statement = tierC_statement k
    ∧ (fallback_to_n1ql_call e₁ k).parameters = [("query_vector", e₁)]
    ∧ fallback_search_statement u₁ k = fallback_search_statement u₂ k
    ∧ fallback_search_statement u₁ k = tierD_statement k :=
  ⟨rfl, rfl, rfl, rfl, rfl⟩

/-- C8 counterexample: the Tier A request uses the constant
`num_candidates=100`; at `top_k = 100` the store is not asked for more
internal candidates than `top_k`, refuting "for every requested result
count". -/
theorem C8_counterexample :
    (tierA_request [] 100).vq.num_candidates = 100
    ∧ ¬ (100 < (tierA_request [] 100).vq.num_candidates)
    ∧ (tierA_request [] 100).limit = 100 := by
  decide

/-- C8 (amended): the Tier A request fixes `num_candidates` at the
constant `100` (which is 20x the DEFAULT `top_k` of 5, not 20x the
requested `top_k`) while limiting the returned output to `top_k`; the
candidate count exceeds `top_k` only when `top_k < 100`. -/
theorem C8_candidates_constant (e : List Rat) (k : Nat) (hk : k < 100) :
    (tierA_request e k).vq.num_candidates = 100
    ∧ (tierA_request e k).vq.num_candidates = 20 * 5
    ∧ (tierA_request e k).limit = k
    ∧ k < (tierA_request e k).vq.num_candidates :=
  ⟨rfl, rfl, rfl, hk⟩

theorem C8_candidates_constant_witness :
    (tierA_request [] 5).vq.num_candidates = 100
    ∧ (tierA_request [] 5).vq.num_candidates = 20 * 5
    ∧ (tierA_request [] 5).limit = 5
    ∧ 5 < (tierA_request [] 5).vq.num_candidates :=
  C8_candidates_constant [] 5 (by decide)

/-- C9: every ordinary result list returned by `perform_vector_search`
has length at most `top_k` (each tier's store request carries
`limit=top_k` / `LIMIT top_k`, and normalization only drops rows), and a
store with fewer than `top_k` documents — including none — is not an
error: the empty list is returned. -/
theorem C9_results_length_le :
    (∀ (w : World) (k : Nat) (items : List ResultItem),
        perform_vector_search w k = .results items → items.length ≤ k)
    ∧ (∀ k : Nat,
        perform_vector_search
          ⟨true, .searchApiOk [VECTOR_INDEX_NAME], .ok [], true, .ok [], none, ⟨true, []⟩⟩ k
          = .results []) := by
  constructor
  · intro w k items h
    unfold perform_vector_search at h
    split at h
    · exact fallback_search_results_length h
    · split at h
      · exact fallback_search_results_length h
      · split at h
        · injection h with h
          subst h
          exact length_take_processSearchRows_le _ k
        · exact fallback_search_results_length h
        · split at h
          · split at h
            · injection h with h
              subst h
              exact length_take_processSearchRows_le _ k
            · exact fallback_search_results_length h
          · injection h with h
            subst h
            exact fallback_to_n1ql_length w.tierC k
  · intro k
    simp [perform_vector_search, check_vector_search_index, processSearchRows]

theorem C9_results_length_le_witness :
    ([docToFallbackItem ⟨none, none, none, none, none⟩] : List ResultItem).length ≤ 5 :=
  C9_results_length_le.1
    ⟨true, .bothFail, .attrError, false, .fail, none,
     ⟨true, [some ⟨none, none, none, none, none⟩]⟩⟩ 5
    [docToFallbackItem ⟨none, none, none, none, none⟩] rfl

/-- C10 (implicit invariant): in every record of every ordinary result
list returned by `perform_vector_search`, the similarity field is a
string — a two-decimal formatted value for the scored tiers, or the
literal marker "N/A (fallback)" for the unscored tier. -/
theorem C10_similarity_field_textual (w : World) (k : Nat) (items : List ResultItem)
    (h : perform_vector_search w k = .results items)
    (item : ResultItem) (hmem : item ∈ items) :
    (∃ q : Rat, item.similarity_score = formatTwoDec q)
    ∨ item.similarity_score = unscoredMarker := by
  unfold perform_vector_search at h
  split at h
  · exact Or.inr (fallback_search_results_similarity h item hmem)
  · split at h
    · exact Or.inr (fallback_search_results_similarity h item hmem)
    · split at h
      · injection h with h
        subst h
        exact Or.inl (mem_processSearchRows_similarity hmem)
      · exact Or.inr (fallback_search_results_similarity h item hmem)
      · split at h
        · split at h
          · injection h with h
            subst h
            exact Or.inl (mem_processSearchRows_similarity hmem)
          · exact Or.inr (fallback_search_results_similarity h item hmem)
        · injection h with h
          subst h
          exact Or.inl (mem_fallback_to_n1ql_similarity hmem)

theorem C10_similarity_field_textual_witness :
    (∃ q : Rat,
        (docToFallbackItem ⟨none, none, none, none, none⟩).similarity_score = formatTwoDec q)
    ∨ (docToFallbackItem ⟨none, none, none, none, none⟩).similarity_score = unscoredMarker :=
  C10_similarity_field_textual
    ⟨true, .bothFail, .attrError, false, .fail, none,
     ⟨true, [some ⟨none, none, none, none, none⟩]⟩⟩ 5
    [docToFallbackItem ⟨none, none, none, none, none⟩] rfl
    (docToFallbackItem ⟨none, none, none, none, none⟩) (by simp)

end HotelChatbot
